import Mathlib

/-!
Shallow embedding of the business-management server core of this repository:
the relational data model (shared schema), the storage operations
(`DatabaseStorage` in the server storage module) and the request handlers
(`registerRoutes` in the server routes module) that the verified claims
exercise: sale creation on the authenticated web path and on the
API-key game path, product update, invoice update, and the
authorization helper.

Modelling conventions:
* The database is a record of lists of rows, one list per table.
  Inserts append; `update ... where` maps over the list; `select ... where`
  is `List.find?` / `List.any` / `List.filter`.
* `varchar` / `text` columns are `String`, nullable ones `Option String`.
* `decimal(10,2)` money columns are `Int`, measured in cents (exact
  fixed-point semantics of the stored decimal values).
* `timestamp` columns are `Nat` (milliseconds since epoch); nullable
  timestamps are `Option Nat`.
* The `stock` column is `integer` with a default but no not-null
  constraint, so it is `Option Int`; the code reads it as
  `product.stock || 0`, embedded as `Option.getD 0`, and the SQL
  decrement `stock = stock - q` propagates null, embedded as `Option.map`.
* Server-generated values (`gen_random_uuid()` primary keys, `Date.now()`)
  are supplied through a `Gen` record of fresh identifiers and the current
  time, mirroring that the environment, not the caller, produces them.
* The one database constraint the claims exercise is the unique index on
  `invoices.invoice_number`; the invoice insert checks it and fails the
  statement on a duplicate.  `createSale` issues its statements one by one
  with no surrounding transaction, exactly as the source does, so a
  failing later statement leaves the earlier writes in place.
-/

namespace GTA

/-- Row of the `businesses` table (column `type` is rendered `btype`). -/
structure Business where
  id : String
  name : String
  btype : String
  description : Option String
  ownerId : String
  apiKey : Option String
  isActive : Bool
deriving DecidableEq

/-- Row of the `business_employees` junction table. -/
structure BusinessEmployee where
  id : String
  businessId : String
  userId : String
  role : String
deriving DecidableEq

/-- Row of the `products` table. -/
structure Product where
  id : String
  businessId : String
  name : String
  description : Option String
  price : Int
  stock : Option Int
  category : Option String
  isActive : Bool
  createdAt : Nat
  updatedAt : Nat
deriving DecidableEq

/-- Row of the `sales` table. -/
structure Sale where
  id : String
  businessId : String
  sellerId : String
  buyerName : String
  buyerInfo : Option String
  totalAmount : Int
  status : String
  source : String
  createdAt : Nat
deriving DecidableEq

/-- Row of the `sale_items` table. -/
structure SaleItem where
  id : String
  saleId : String
  productId : String
  productName : String
  quantity : Int
  unitPrice : Int
  totalPrice : Int
deriving DecidableEq

/-- Row of the `invoices` table. -/
structure Invoice where
  id : String
  saleId : String
  invoiceNumber : String
  status : String
  issueDate : Nat
  dueDate : Option Nat
  paidAt : Option Nat
deriving DecidableEq

/-- The relational store: one list of rows per table of the shared schema
(the `users` and `sessions` tables are not touched by the verified
operations and are omitted). -/
structure DB where
  businesses : List Business
  businessEmployees : List BusinessEmployee
  products : List Product
  sales : List Sale
  saleItems : List SaleItem
  invoices : List Invoice
deriving DecidableEq

/-- `DatabaseStorage.getProduct`: select the product row by primary key. -/
def getProduct (db : DB) (id : String) : Option Product :=
  db.products.find? (fun p => p.id == id)

/-- `DatabaseStorage.getBusinessByApiKey`: select the business row whose
`api_key` column equals the given key. -/
def getBusinessByApiKey (db : DB) (apiKey : String) : Option Business :=
  db.businesses.find? (fun b => b.apiKey == some apiKey)

/-- `DatabaseStorage.isUserAuthorizedForBusiness`: first select a business
row matching both the id and the owner and return true on a hit, else
select an employee row matching the business and the user.  The
early-return structure of the source is the short-circuit disjunction. -/
def isUserAuthorizedForBusiness (db : DB) (userId businessId : String) : Bool :=
  db.businesses.any (fun b => b.id == businessId && b.ownerId == userId) ||
  db.businessEmployees.any (fun e => e.businessId == businessId && e.userId == userId)

/-- Fresh server-generated values consumed by one sale creation: the
`gen_random_uuid()` primary keys of the new sale, of its item rows (by
position) and of the new invoice, and the `Date.now()` timestamp. -/
structure Gen where
  saleId : String
  itemId : Nat → String
  invoiceId : String
  now : Nat

/-- Digit character of a base-36 number, uppercase, as produced by
JavaScript `Number.prototype.toString(36)` followed by `toUpperCase()`. -/
def base36DigitChar (n : Nat) : Char :=
  if n < 10 then Char.ofNat (48 + n) else Char.ofNat (55 + n)

/-- Base-36 digit expansion; the fuel argument (always at least the digit
count) keeps the recursion structural so the function evaluates inside
the kernel. -/
def toBase36Go : Nat → Nat → List Char → List Char
  | 0, _, acc => acc
  | fuel + 1, n, acc =>
    if n < 36 then base36DigitChar n :: acc
    else toBase36Go fuel (n / 36) (base36DigitChar (n % 36) :: acc)

/-- `n.toString(36).toUpperCase()` for a natural number `n`. -/
def toBase36 (n : Nat) : String :=
  String.mk (toBase36Go (n + 1) n [])

/-- The invoice number `createSale` generates:
"INV-" followed by `Date.now()` in uppercase base 36.  Two calls in the
same millisecond produce the same number. -/
def invoiceNumberFor (now : Nat) : String :=
  "INV-" ++ toBase36 now

/-- Sale column values as `createSale` receives them (`InsertSale` of the
shared schema): no id or creation time, optional status and source whose
absence falls back to the column defaults "completed" and "web". -/
structure InsertSale where
  businessId : String
  sellerId : String
  buyerName : String
  buyerInfo : Option String
  totalAmount : Int
  status : Option String
  source : Option String
deriving DecidableEq

/-- Sale-item column values as `createSale` receives them
(`Omit<InsertSaleItem, "saleId">`): the sale id is attached inside
`createSale`. -/
structure InsertSaleItem where
  productId : String
  productName : String
  quantity : Int
  unitPrice : Int
  totalPrice : Int
deriving DecidableEq

/-- The sale row `createSale` inserts: fresh id, caller-supplied columns,
column defaults for absent status/source, creation time from the clock. -/
def saleRowOf (saleData : InsertSale) (gen : Gen) : Sale :=
  { id := gen.saleId, businessId := saleData.businessId,
    sellerId := saleData.sellerId, buyerName := saleData.buyerName,
    buyerInfo := saleData.buyerInfo, totalAmount := saleData.totalAmount,
    status := saleData.status.getD "completed",
    source := saleData.source.getD "web", createdAt := gen.now }

/-- The item row inserted for the `idx`-th entry of the items list. -/
def itemRowOf (gen : Gen) (saleId : String) (item : InsertSaleItem)
    (idx : Nat) : SaleItem :=
  { id := gen.itemId idx, saleId := saleId, productId := item.productId,
    productName := item.productName, quantity := item.quantity,
    unitPrice := item.unitPrice, totalPrice := item.totalPrice }

/-- The per-item loop of `createSale`: insert the sale-item row, then
`update products set stock = stock - quantity, updated_at = now() where
id = productId`.  One statement pair per item, in list order. -/
def saleItemsLoop (gen : Gen) (saleId : String) :
    DB → List InsertSaleItem → Nat → DB
  | db, [], _ => db
  | db, item :: rest, idx =>
    let db1 : DB :=
      { db with saleItems := db.saleItems ++ [itemRowOf gen saleId item idx] }
    let db2 : DB :=
      { db1 with products := db1.products.map (fun p =>
          if p.id == item.productId then
            { p with stock := p.stock.map (fun s => s - item.quantity),
                     updatedAt := gen.now }
          else p) }
    saleItemsLoop gen saleId db2 rest (idx + 1)

/-- The invoice row `createSale` inserts. -/
def invoiceRowOf (gen : Gen) : Invoice :=
  { id := gen.invoiceId, saleId := gen.saleId,
    invoiceNumber := invoiceNumberFor gen.now, status := "pending",
    issueDate := gen.now, dueDate := none, paidAt := none }

/-- `DatabaseStorage.createSale`: insert the sale row, run the per-item
loop, generate the invoice number from the current time and insert the
invoice row.  The statements run one after another with no transaction;
the only constraint the database checks here is the unique index on
`invoices.invoice_number`, so on a duplicate number the invoice insert
fails and the function surfaces the error while every earlier write
stays committed. -/
def createSale (db : DB) (saleData : InsertSale)
    (items : List InsertSaleItem) (gen : Gen) :
    DB × Except String (Sale × Invoice) :=
  let sale := saleRowOf saleData gen
  let db1 : DB := { db with sales := db.sales ++ [sale] }
  let db2 := saleItemsLoop gen sale.id db1 items 0
  let invNum := invoiceNumberFor gen.now
  if db2.invoices.any (fun i => i.invoiceNumber == invNum) then
    (db2, .error "duplicate key value violates unique constraint")
  else
    let invoice := invoiceRowOf gen
    ({ db2 with invoices := db2.invoices ++ [invoice] }, .ok (sale, invoice))

/-- The item rows the per-item loop inserts, by position. -/
def itemRows (gen : Gen) (saleId : String) :
    List InsertSaleItem → Nat → List SaleItem
  | [], _ => []
  | item :: rest, idx =>
    itemRowOf gen saleId item idx :: itemRows gen saleId rest (idx + 1)

/-- One entry of the `items` array of a `POST /api/sales` body: the web
client supplies the name, unit price and line total itself. -/
structure WebSaleItemReq where
  productId : String
  productName : String
  quantity : Int
  unitPrice : Int
  totalPrice : Int
deriving DecidableEq

/-- Body of `POST /api/sales` after JSON decoding. -/
structure WebSaleReq where
  businessId : String
  buyerName : String
  buyerInfo : Option String
  totalAmount : Int
  status : Option String
  source : Option String
  items : List WebSaleItemReq
deriving DecidableEq

/-- The runtime checks of the zod schema of `POST /api/sales`:
`buyerName` at least one character, every quantity a positive integer
(field presence and types are the Lean types themselves). -/
def webParseOk (req : WebSaleReq) : Bool :=
  1 ≤ req.buyerName.length && req.items.all (fun i => decide (0 < i.quantity))

/-- The per-item validation loop of the `POST /api/sales` handler: resolve
each product and return the first failure message, if any.  The checks, in
source order: product exists, product belongs to the request's business,
`(product.stock || 0)` at least the quantity. -/
def validateSaleItems (db : DB) (businessId : String) :
    List WebSaleItemReq → Option String
  | [] => none
  | item :: rest =>
    match getProduct db item.productId with
    | none => some ("Product " ++ item.productId ++ " not found")
    | some product =>
      if product.businessId != businessId then
        some ("Product " ++ product.name ++ " does not belong to this business")
      else if decide (product.stock.getD 0 < item.quantity) then
        some ("Insufficient stock for " ++ product.name)
      else
        validateSaleItems db businessId rest

/-- Response of the `POST /api/sales` handler: an error status with its
message, or 201 with the created sale and invoice. -/
inductive WebSaleResp where
  | error (status : Nat) (message : String)
  | created (sale : Sale) (invoice : Invoice)
deriving DecidableEq

/-- The `POST /api/sales` handler: zod parse (a failure is caught and
becomes a generic 400), authorization of the logged-in user for the
body's business, the per-item validation loop, then
`createSale({...saleData, sellerId: userId}, items)` with the
client-supplied amounts passed through; a `createSale` failure is caught
as the same generic 400 while its committed writes remain. -/
def postSales (db : DB) (userId : String) (req : WebSaleReq) (gen : Gen) :
    DB × WebSaleResp :=
  if !webParseOk req then (db, .error 400 "Failed to create sale")
  else if !isUserAuthorizedForBusiness db userId req.businessId then
    (db, .error 403 "Not authorized to create sales for this business")
  else
    match validateSaleItems db req.businessId req.items with
    | some msg => (db, .error 400 msg)
    | none =>
      let saleData : InsertSale :=
        { businessId := req.businessId, sellerId := userId,
          buyerName := req.buyerName, buyerInfo := req.buyerInfo,
          totalAmount := req.totalAmount, status := req.status,
          source := req.source }
      let items := req.items.map (fun i =>
        ({ productId := i.productId, productName := i.productName,
           quantity := i.quantity, unitPrice := i.unitPrice,
           totalPrice := i.totalPrice } : InsertSaleItem))
      match createSale db saleData items gen with
      | (db', .ok (sale, invoice)) => (db', .created sale invoice)
      | (db', .error _) => (db', .error 400 "Failed to create sale")

/-- One entry of the `items` array of a `POST /api/game/sales` body: only
a product reference and a quantity, no prices. -/
structure GameSaleItemReq where
  productId : String
  quantity : Int
deriving DecidableEq

/-- Body of `POST /api/game/sales` after JSON decoding. -/
structure GameSaleReq where
  businessApiKey : String
  buyerName : String
  buyerInfo : Option String
  sellerId : Option String
  items : List GameSaleItemReq
deriving DecidableEq

/-- The runtime checks of the zod schema of `POST /api/game/sales`. -/
def gameParseOk (req : GameSaleReq) : Bool :=
  1 ≤ req.buyerName.length && req.items.all (fun i => decide (0 < i.quantity))

/-- Seller resolution of the game handler: start from the business owner;
a supplied seller id replaces it only when `isUserAuthorizedForBusiness`
accepts it, otherwise it is silently dropped. -/
def gameSellerId (db : DB) (req : GameSaleReq) (business : Business) :
    String :=
  match req.sellerId with
  | some s => if isUserAuthorizedForBusiness db s business.id then s
              else business.ownerId
  | none => business.ownerId

/-- The item loop of the game handler: resolve each product, run the same
three checks as the web path, and on success build the row from the
product itself: name and unit price from the product record,
`itemTotal = price * quantity` as the line total, and accumulate the sale
total. -/
def buildGameItems (db : DB) (businessId : String) :
    List GameSaleItemReq → Except String (List InsertSaleItem × Int)
  | [] => .ok ([], 0)
  | item :: rest =>
    match getProduct db item.productId with
    | none => .error ("Product " ++ item.productId ++ " not found")
    | some product =>
      if product.businessId != businessId then
        .error ("Product " ++ product.name ++ " does not belong to this business")
      else if decide (product.stock.getD 0 < item.quantity) then
        .error ("Insufficient stock for " ++ product.name)
      else
        match buildGameItems db businessId rest with
        | .error msg => .error msg
        | .ok (rows, total) =>
          let itemTotal := product.price * item.quantity
          .ok ({ productId := product.id, productName := product.name,
                 quantity := item.quantity, unitPrice := product.price,
                 totalPrice := itemTotal } :: rows, itemTotal + total)

/-- Response of the `POST /api/game/sales` handler: an error status with
its message, or 201 with `{success, saleId, invoiceNumber, totalAmount}`. -/
inductive GameSaleResp where
  | error (status : Nat) (message : String)
  | created (saleId : String) (invoiceNumber : String) (totalAmount : Int)
deriving DecidableEq

/-- The `InsertSale` the game handler passes to `createSale`: the key's
business, the resolved seller, the body's buyer fields, the accumulated
total, status "completed" and source "game". -/
def gameInsertSale (db : DB) (req : GameSaleReq) (business : Business)
    (totalAmount : Int) : InsertSale :=
  { businessId := business.id,
    sellerId := gameSellerId db req business,
    buyerName := req.buyerName, buyerInfo := req.buyerInfo,
    totalAmount := totalAmount, status := some "completed",
    source := some "game" }

/-- The `POST /api/game/sales` handler: zod parse, API-key lookup (401 on
a miss), seller resolution, the item loop, then `createSale` with status
"completed" and source "game"; a thrown error is caught as a generic
400. -/
def postGameSales (db : DB) (req : GameSaleReq) (gen : Gen) :
    DB × GameSaleResp :=
  if !gameParseOk req then (db, .error 400 "Failed to process sale")
  else
    match getBusinessByApiKey db req.businessApiKey with
    | none => (db, .error 401 "Invalid API key")
    | some business =>
      match buildGameItems db business.id req.items with
      | .error msg => (db, .error 400 msg)
      | .ok (items, totalAmount) =>
        match createSale db (gameInsertSale db req business totalAmount)
          items gen with
        | (db', .ok (sale, invoice)) =>
          (db', .created sale.id invoice.invoiceNumber totalAmount)
        | (db', .error _) => (db', .error 400 "Failed to process sale")

/-- A `Partial<InsertProduct>` as `updateProduct` receives it: every
column optional, `none` meaning the key is absent from the patch. -/
structure ProductUpdate where
  businessId : Option String
  name : Option String
  description : Option String
  price : Option Int
  stock : Option Int
  category : Option String
  isActive : Option Bool
deriving DecidableEq

/-- The row produced by `update products set {...patch, updatedAt: now}`:
each present key overwrites its column, absent keys leave the column. -/
def applyProductUpdate (p : Product) (u : ProductUpdate) (now : Nat) :
    Product :=
  { p with
    businessId := u.businessId.getD p.businessId,
    name := u.name.getD p.name,
    description := match u.description with
                   | some d => some d
                   | none => p.description,
    price := u.price.getD p.price,
    stock := match u.stock with
             | some s => some s
             | none => p.stock,
    category := match u.category with
                | some c => some c
                | none => p.category,
    isActive := u.isActive.getD p.isActive,
    updatedAt := now }

/-- `DatabaseStorage.updateProduct`: update the row matching the id and
return the updated row. -/
def updateProduct (db : DB) (id : String) (u : ProductUpdate) (now : Nat) :
    DB × Option Product :=
  let db' : DB :=
    { db with products := db.products.map (fun p =>
        if p.id == id then applyProductUpdate p u now else p) }
  (db', db'.products.find? (fun p => p.id == id))

/-- Response of the `PATCH /api/products/:id` handler. -/
inductive PatchProductResp where
  | error (status : Nat) (message : String)
  | ok (product : Option Product)
deriving DecidableEq

/-- The `PATCH /api/products/:id` handler: resolve the product (404),
authorize the user for the product's business (403), then delete the
`businessId` key from the patch body before calling `updateProduct`, so
a product can never be moved between businesses. -/
def patchProduct (db : DB) (userId productId : String)
    (body : ProductUpdate) (now : Nat) : DB × PatchProductResp :=
  match getProduct db productId with
  | none => (db, .error 404 "Product not found")
  | some existingProduct =>
    if !isUserAuthorizedForBusiness db userId existingProduct.businessId then
      (db, .error 403 "Not authorized to update this product")
    else
      let updateData : ProductUpdate := { body with businessId := none }
      let r := updateProduct db productId updateData now
      (r.1, .ok r.2)

/-- A `Partial<Invoice>` as `updateInvoice` receives it, restricted to the
keys its callers supply and the function inspects: status, due date and
paid timestamp; `none` means the key is absent. -/
structure InvoiceUpdate where
  status : Option String
  dueDate : Option Nat
  paidAt : Option Nat
deriving DecidableEq

/-- `DatabaseStorage.updateInvoice`: copy the patch, and when the patch
sets status "paid" without carrying a `paidAt` of its own, add
`paidAt = new Date()` to it — the test reads the patch, not the stored
row.  Then update the row matching the id with the present keys and
return it. -/
def applyInvoiceUpdate (data : InvoiceUpdate) (now : Nat) (i : Invoice) :
    Invoice :=
  let effPaidAt : Option Nat :=
    if data.status == some "paid" && data.paidAt == none then some now
    else data.paidAt
  { i with
    status := data.status.getD i.status,
    dueDate := match data.dueDate with
               | some d => some d
               | none => i.dueDate,
    paidAt := match effPaidAt with
              | some t => some t
              | none => i.paidAt }

/-- The row update and returning select of `updateInvoice`. -/
def updateInvoice (db : DB) (id : String) (data : InvoiceUpdate)
    (now : Nat) : DB × Option Invoice :=
  let db' : DB :=
    { db with invoices := db.invoices.map (fun i =>
        if i.id == id then applyInvoiceUpdate data now i else i) }
  (db', db'.invoices.find? (fun i => i.id == id))

/-- Response of the `PATCH /api/invoices/:id` handler. -/
inductive PatchInvoiceResp where
  | error (status : Nat) (message : String)
  | ok (invoice : Option Invoice)
deriving DecidableEq

/-- The `PATCH /api/invoices/:id` handler: resolve the invoice (404),
authorize through the invoice's sale's business when that sale exists,
parse `{status?, dueDate?}` — so the patch never carries a `paidAt` —
and call `updateInvoice`.  An out-of-enumeration status fails the zod
parse and is caught as a 400. -/
def patchInvoice (db : DB) (userId invoiceId : String)
    (status : Option String) (dueDate : Option Nat) (now : Nat) :
    DB × PatchInvoiceResp :=
  match db.invoices.find? (fun i => i.id == invoiceId) with
  | none => (db, .error 404 "Invoice not found")
  | some existingInvoice =>
    let authorized :=
      match db.sales.find? (fun s => s.id == existingInvoice.saleId) with
      | some sale => isUserAuthorizedForBusiness db userId sale.businessId
      | none => true
    if !authorized then
      (db, .error 403 "Not authorized to update this invoice")
    else if !(status.all (fun s =>
        s == "pending" || s == "paid" || s == "cancelled")) then
      (db, .error 400 "Failed to update invoice")
    else
      let r := updateInvoice db invoiceId
        { status := status, dueDate := dueDate, paidAt := none } now
      (r.1, .ok r.2)

/-- Decidable equality for `Except` results, so the concrete runs can be
checked by `decide`. -/
instance {e a : Type} [DecidableEq e] [DecidableEq a] :
    DecidableEq (Except e a)
  | .ok x, .ok y =>
    if h : x = y then .isTrue (by rw [h]) else .isFalse (by simp [h])
  | .ok _, .error _ => .isFalse (by simp)
  | .error _, .ok _ => .isFalse (by simp)
  | .error x, .error y =>
    if h : x = y then .isTrue (by rw [h]) else .isFalse (by simp [h])

/-- A sale line fails the per-item validation of either entry point:
its product does not exist, or belongs to another business, or has
`(stock || 0)` below the requested quantity.  Transcribes the three
checks both handlers run before any write. -/
def itemFails (db : DB) (businessId pid : String) (q : Int) : Bool :=
  match getProduct db pid with
  | none => true
  | some p => p.businessId != businessId || decide (p.stock.getD 0 < q)

/-- The three specific client-visible rejection messages the per-item
validation of either entry point can produce. -/
def itemRejectionMsg (msg : String) : Prop :=
  (∃ pid, msg = "Product " ++ pid ++ " not found") ∨
  (∃ name, msg = "Product " ++ name ++ " does not belong to this business") ∨
  (∃ name, msg = "Insufficient stock for " ++ name)

/-- Fixed generator for the concrete runs: fresh ids "s1"/"si0","si1",…/
"i1" and clock value 7 (invoice number "INV-7"). -/
def gen0 : Gen :=
  { saleId := "s1", itemId := fun n => "si" ++ toString n,
    invoiceId := "i1", now := 7 }

/-- Product row "Widget" of business `b1`, price 100.00, stock 5. -/
def widget : Product :=
  { id := "p1", businessId := "b1", name := "Widget",
    description := none, price := 10000, stock := some 5,
    category := none, isActive := true, createdAt := 0, updatedAt := 0 }

/-- Business `b1` "Alpha", owned by `u1`, API key "k1". -/
def alphaBiz : Business :=
  { id := "b1", name := "Alpha", btype := "store", description := none,
    ownerId := "u1", apiKey := some "k1", isActive := true }

/-- Concrete store: business `b1` owned by `u1` with API key "k1" and one
product `p1` ("Widget", price 100.00, stock 5); no employees, no sales,
no invoices. -/
def shopDB : DB :=
  { businesses := [alphaBiz],
    businessEmployees := [],
    products := [widget],
    sales := [], saleItems := [], invoices := [] }

/-- The store of `shopDB` after an earlier sale `s0` in the same
millisecond 7, whose invoice already carries the number "INV-7" that the
next `createSale` call at clock 7 will generate again. -/
def collideDB : DB :=
  { shopDB with
    sales :=
      [ { id := "s0", businessId := "b1", sellerId := "u1",
          buyerName := "Ann", buyerInfo := none, totalAmount := 10000,
          status := "completed", source := "web", createdAt := 7 } ],
    invoices :=
      [ { id := "i0", saleId := "s0",
          invoiceNumber := invoiceNumberFor 7, status := "pending",
          issueDate := 7, dueDate := none, paidAt := none } ] }

/-- Sale data of the colliding `createSale` call. -/
def collideSaleData : InsertSale :=
  { businessId := "b1", sellerId := "u1", buyerName := "Bob",
    buyerInfo := none, totalAmount := 20000, status := some "completed",
    source := some "web" }

/-- Items of the colliding `createSale` call: two Widgets. -/
def collideItems : List InsertSaleItem :=
  [ { productId := "p1", productName := "Widget", quantity := 2,
      unitPrice := 10000, totalPrice := 20000 } ]

/-- A `POST /api/sales` body whose client-chosen name, unit price, line
total and sale total disagree with the product record: the product is
"Widget" at 100.00 but the body claims "FAKE" at 0.01. -/
def fakePriceReq : WebSaleReq :=
  { businessId := "b1", buyerName := "Bob", buyerInfo := none,
    totalAmount := 1, status := none, source := none,
    items :=
      [ { productId := "p1", productName := "FAKE", quantity := 1,
          unitPrice := 1, totalPrice := 1 } ] }

/-- A `POST /api/sales` body violating both halves of the totals
invariant: sale total 9.99 over a single line whose line total 0.01
differs from quantity x unit price = 1 x 0.02. -/
def badTotalsReq : WebSaleReq :=
  { businessId := "b1", buyerName := "Bob", buyerInfo := none,
    totalAmount := 999, status := none, source := none,
    items :=
      [ { productId := "p1", productName := "Widget", quantity := 1,
          unitPrice := 2, totalPrice := 1 } ] }

/-- `shopDB` with the Widget sold out (stock 0). -/
def soldOutDB : DB :=
  { shopDB with
    products :=
      [ { id := "p1", businessId := "b1", name := "Widget",
          description := none, price := 10000, stock := some 0,
          category := none, isActive := true, createdAt := 0,
          updatedAt := 0 } ] }

/-- Web body asking for one Widget (used against `soldOutDB`). -/
def oneWidgetWebReq : WebSaleReq :=
  { businessId := "b1", buyerName := "Bob", buyerInfo := none,
    totalAmount := 10000, status := none, source := none,
    items :=
      [ { productId := "p1", productName := "Widget", quantity := 1,
          unitPrice := 10000, totalPrice := 10000 } ] }

/-- Game body asking for one Widget (used against `soldOutDB`). -/
def oneWidgetGameReq : GameSaleReq :=
  { businessApiKey := "k1", buyerName := "Bob", buyerInfo := none,
    sellerId := none, items := [ { productId := "p1", quantity := 1 } ] }

/-- Sale data of the clean `createSale` run used as the C6 witness. -/
def plainSaleData : InsertSale :=
  { businessId := "b1", sellerId := "u1", buyerName := "Ann",
    buyerInfo := none, totalAmount := 20000, status := none,
    source := none }

/-- Items of the clean `createSale` run. -/
def plainItems : List InsertSaleItem :=
  [ { productId := "p1", productName := "Widget", quantity := 2,
      unitPrice := 10000, totalPrice := 20000 } ]

/-- Store with one pending invoice `i1` (for the invoice-update runs). -/
def invDB : DB :=
  { businesses := [], businessEmployees := [], products := [], sales := [],
    saleItems := [],
    invoices :=
      [ { id := "i1", saleId := "s9", invoiceNumber := "INV-0",
          status := "pending", issueDate := 0, dueDate := none,
          paidAt := none } ] }

/-- The patch `PATCH /api/invoices/:id` hands to `updateInvoice` when the
body is `{status: "paid"}`: no due date and, decisively, no `paidAt`. -/
def paidPatch : InvoiceUpdate :=
  { status := some "paid", dueDate := none, paidAt := none }

/-- A game body presenting an API key no business holds. -/
def badKeyReq : GameSaleReq :=
  { businessApiKey := "nope", buyerName := "Bob", buyerInfo := none,
    sellerId := none, items := [] }

/-- A product patch that tries to move `p1` to business `b2` while also
renaming it and changing its price. -/
def movePatch : ProductUpdate :=
  { businessId := some "b2", name := some "Gadget", description := none,
    price := some 4200, stock := some 9, category := none,
    isActive := none }

/-- A game body carrying a seller id that is neither owner nor employee
of the key's business. -/
def bogusSellerReq : GameSaleReq :=
  { businessApiKey := "k1", buyerName := "Bob", buyerInfo := none,
    sellerId := some "mallory",
    items := [ { productId := "p1", quantity := 1 } ] }

/-- `bogusSellerReq` with the seller id removed. -/
def noSellerReq : GameSaleReq :=
  { businessApiKey := "k1", buyerName := "Bob", buyerInfo := none,
    sellerId := none, items := [ { productId := "p1", quantity := 1 } ] }

/-- Concrete store exercising the authorization helper: user `u2` is an
employee of business `b1`, user `u3` of business `b2` only. -/
def authDB : DB :=
  { businesses :=
      [ { id := "b1", name := "Alpha", btype := "store", description := none,
          ownerId := "u1", apiKey := some "k1", isActive := true },
        { id := "b2", name := "Beta", btype := "garage", description := none,
          ownerId := "u9", apiKey := some "k2", isActive := true } ],
    businessEmployees :=
      [ { id := "e1", businessId := "b1", userId := "u2", role := "employee" },
        { id := "e2", businessId := "b2", userId := "u3", role := "manager" } ],
    products := [], sales := [], saleItems := [], invoices := [] }


end GTA

namespace GTA

theorem saleItemsLoop_sales (gen : Gen) (saleId : String) :
    ∀ (items : List InsertSaleItem) (db : DB) (idx : Nat),
      (saleItemsLoop gen saleId db items idx).sales = db.sales
  | [], _, _ => rfl
  | _ :: rest, _db, idx => saleItemsLoop_sales gen saleId rest _ (idx + 1)

theorem saleItemsLoop_invoices (gen : Gen) (saleId : String) :
    ∀ (items : List InsertSaleItem) (db : DB) (idx : Nat),
      (saleItemsLoop gen saleId db items idx).invoices = db.invoices
  | [], _, _ => rfl
  | _ :: rest, _db, idx => saleItemsLoop_invoices gen saleId rest _ (idx + 1)

theorem saleItemsLoop_saleItems (gen : Gen) (saleId : String) :
    ∀ (items : List InsertSaleItem) (db : DB) (idx : Nat),
      (saleItemsLoop gen saleId db items idx).saleItems =
        db.saleItems ++ itemRows gen saleId items idx
  | [], db, _ => by simp [saleItemsLoop, itemRows]
  | item :: rest, db, idx => by
    simp only [saleItemsLoop, itemRows]
    rw [saleItemsLoop_saleItems gen saleId rest _ (idx + 1)]
    simp

theorem itemRows_saleId (gen : Gen) (saleId : String) :
    ∀ (items : List InsertSaleItem) (idx : Nat),
      ∀ r ∈ itemRows gen saleId items idx, r.saleId = saleId
  | [], _ => by simp [itemRows]
  | item :: rest, idx => by
    simp only [itemRows, List.mem_cons]
    rintro r (rfl | hr)
    · rfl
    · exact itemRows_saleId gen saleId rest (idx + 1) r hr

theorem itemRows_fields (gen : Gen) (saleId : String) :
    ∀ (items : List InsertSaleItem) (idx : Nat),
      ∀ r ∈ itemRows gen saleId items idx,
        ∃ it ∈ items, r.productId = it.productId ∧
          r.productName = it.productName ∧ r.quantity = it.quantity ∧
          r.unitPrice = it.unitPrice ∧ r.totalPrice = it.totalPrice
  | [], _ => by simp [itemRows]
  | item :: rest, idx => by
    simp only [itemRows, List.mem_cons]
    rintro r (rfl | hr)
    · exact ⟨item, Or.inl rfl, rfl, rfl, rfl, rfl, rfl⟩
    · obtain ⟨it, hit, h⟩ := itemRows_fields gen saleId rest (idx + 1) r hr
      exact ⟨it, Or.inr hit, h⟩

theorem itemRows_map_totalPrice (gen : Gen) (saleId : String) :
    ∀ (items : List InsertSaleItem) (idx : Nat),
      (itemRows gen saleId items idx).map SaleItem.totalPrice =
        items.map InsertSaleItem.totalPrice
  | [], _ => rfl
  | item :: rest, idx => by
    simp only [itemRows, List.map_cons]
    rw [itemRows_map_totalPrice gen saleId rest (idx + 1)]
    rfl

/-- Unconditionally, `createSale` leaves the sale row appended: the sale
insert is the first statement and nothing later touches the table. -/
theorem createSale_sales (db : DB) (saleData : InsertSale)
    (items : List InsertSaleItem) (gen : Gen) :
    (createSale db saleData items gen).1.sales =
      db.sales ++ [saleRowOf saleData gen] := by
  simp only [createSale]
  split
  · exact saleItemsLoop_sales gen gen.saleId items _ 0
  · exact saleItemsLoop_sales gen gen.saleId items _ 0

/-- Unconditionally, `createSale` leaves the item rows appended. -/
theorem createSale_saleItems (db : DB) (saleData : InsertSale)
    (items : List InsertSaleItem) (gen : Gen) :
    (createSale db saleData items gen).1.saleItems =
      db.saleItems ++ itemRows gen gen.saleId items 0 := by
  simp only [createSale]
  split
  · exact saleItemsLoop_saleItems gen gen.saleId items _ 0
  · exact saleItemsLoop_saleItems gen gen.saleId items _ 0

/-- On success the returned rows are the inserted rows and the invoice
table gained exactly the new invoice. -/
theorem createSale_ok_spec (db : DB) (saleData : InsertSale)
    (items : List InsertSaleItem) (gen : Gen) (sale : Sale) (inv : Invoice)
    (h : (createSale db saleData items gen).2 = .ok (sale, inv)) :
    sale = saleRowOf saleData gen ∧ inv = invoiceRowOf gen ∧
      (createSale db saleData items gen).1.invoices =
        db.invoices ++ [invoiceRowOf gen] ∧
      (∀ i ∈ db.invoices,
        i.invoiceNumber ≠ invoiceNumberFor gen.now) := by
  simp only [createSale] at h ⊢
  split at h
  · simp at h
  · next hdup =>
    simp only [Except.ok.injEq, Prod.mk.injEq] at h
    obtain ⟨rfl, rfl⟩ := h
    refine ⟨rfl, rfl, ?_, ?_⟩
    · rw [if_neg hdup]
      simp only [saleItemsLoop_invoices]
    · rw [saleItemsLoop_invoices] at hdup
      simp only [List.any_eq_true, beq_iff_eq, not_exists, not_and] at hdup
      intro i hi
      exact hdup i hi


/-- C5: `isUserAuthorizedForBusiness(userId, businessId)` returns true iff
the business's `ownerId` equals `userId` or a `BusinessEmployee` row joins
that user to that business, and false for every other pair (in particular
for an employee of a different business).  Stated for any business row
present in the store, with the primary-key uniqueness the schema
guarantees. -/
theorem isUserAuthorizedForBusiness_iff (db : DB) (u : String) (b : Business)
    (hb : b ∈ db.businesses)
    (huniq : ∀ b' ∈ db.businesses, b'.id = b.id → b' = b) :
    isUserAuthorizedForBusiness db u b.id = true ↔
      (b.ownerId = u ∨
        ∃ e ∈ db.businessEmployees, e.businessId = b.id ∧ e.userId = u) := by
  unfold isUserAuthorizedForBusiness
  simp only [Bool.or_eq_true, List.any_eq_true, Bool.and_eq_true, beq_iff_eq]
  constructor
  · rintro (⟨b', hb', hid, hown⟩ | ⟨e, he, h1, h2⟩)
    · exact Or.inl (huniq b' hb' hid ▸ hown)
    · exact Or.inr ⟨e, he, h1, h2⟩
  · rintro (hown | ⟨e, he, h1, h2⟩)
    · exact Or.inl ⟨b, hb, rfl, hown⟩
    · exact Or.inr ⟨e, he, h1, h2⟩

/-- Witness for C5 at the concrete store: the owner is authorized for
business `b1`. -/
theorem isUserAuthorizedForBusiness_iff_witness :
    isUserAuthorizedForBusiness authDB "u1" "b1" = true :=
  (isUserAuthorizedForBusiness_iff authDB "u1"
      { id := "b1", name := "Alpha", btype := "store", description := none,
        ownerId := "u1", apiKey := some "k1", isActive := true }
      (by decide) (by decide)).mpr (Or.inl rfl)

/-- Updating exactly the matching rows of a list commutes with the
returning select, provided the update does not touch the selected key. -/
theorem find?_map_comm {α : Type} (l : List α) (p : α → Bool) (f : α → α)
    (hf : ∀ a, p (f a) = p a) :
    (l.map (fun a => if p a then f a else a)).find? p =
      (l.find? p).map f := by
  induction l with
  | nil => rfl
  | cons a l ih =>
    by_cases h : p a = true
    · rw [List.map_cons, if_pos h, List.find?_cons_of_pos _ ((hf a).trans h),
        List.find?_cons_of_pos _ h]
      rfl
    · rw [List.map_cons, if_neg h,
        List.find?_cons_of_neg _ (by simpa using h),
        List.find?_cons_of_neg _ (by simpa using h), ih]

/-- C1: sale creation is not atomic.  `createSale` runs its statements
with no transaction; at the concrete store `collideDB`, whose earlier
same-millisecond invoice already holds the number the call generates,
the invoice insert fails and yet the new sale row, its item row and the
stock decrement remain persisted: a Sale without an Invoice. -/
theorem createSale_partial_write_on_invoice_collision :
    (createSale collideDB collideSaleData collideItems gen0).2 =
      .error "duplicate key value violates unique constraint" ∧
    ((createSale collideDB collideSaleData collideItems gen0).1.sales.filter
      (fun s => s.id == "s1")).length = 1 ∧
    ((createSale collideDB collideSaleData collideItems
      gen0).1.saleItems.filter (fun it => it.saleId == "s1")).length = 1 ∧
    (getProduct (createSale collideDB collideSaleData collideItems gen0).1
      "p1").map Product.stock = some (some 3) ∧
    ((createSale collideDB collideSaleData collideItems gen0).1.invoices.filter
      (fun i => i.saleId == "s1")).length = 0 := by
  decide

/-- C2 counterexample: on the web path the handler persists the
client-supplied name, unit price, line total and sale total unchanged.
At `shopDB` a request claiming product `p1` is "FAKE" at 0.01 succeeds,
and the stored item carries "FAKE"/0.01 although the product record says
"Widget"/100.00. -/
theorem postSales_stores_client_values :
    (postSales shopDB "u1" fakePriceReq gen0).2 =
      WebSaleResp.created
        { id := "s1", businessId := "b1", sellerId := "u1",
          buyerName := "Bob", buyerInfo := none, totalAmount := 1,
          status := "completed", source := "web", createdAt := 7 }
        { id := "i1", saleId := "s1", invoiceNumber := invoiceNumberFor 7,
          status := "pending", issueDate := 7, dueDate := none,
          paidAt := none } ∧
    (postSales shopDB "u1" fakePriceReq gen0).1.saleItems.map
      (fun it => (it.productName, it.unitPrice, it.totalPrice)) =
      [("FAKE", 1, 1)] ∧
    (getProduct shopDB "p1").map (fun p => (p.name, p.price)) =
      some ("Widget", 10000) ∧
    ("FAKE" : String) ≠ "Widget" ∧ (1 : Int) ≠ 10000 := by
  decide

/-- C3 counterexample: a web sale is persisted with
`totalAmount = 9.99` over a single line of `totalPrice = 0.01` and
`quantity * unitPrice = 0.02`, violating both halves of the totals
invariant. -/
theorem postSales_breaks_totals_invariant :
    (postSales shopDB "u1" badTotalsReq gen0).2 =
      WebSaleResp.created
        { id := "s1", businessId := "b1", sellerId := "u1",
          buyerName := "Bob", buyerInfo := none, totalAmount := 999,
          status := "completed", source := "web", createdAt := 7 }
        { id := "i1", saleId := "s1", invoiceNumber := invoiceNumberFor 7,
          status := "pending", issueDate := 7, dueDate := none,
          paidAt := none } ∧
    (((postSales shopDB "u1" badTotalsReq gen0).1.saleItems.filter
      (fun it => it.saleId == "s1")).map SaleItem.totalPrice).sum = 1 ∧
    (postSales shopDB "u1" badTotalsReq gen0).1.saleItems.map
      (fun it => (it.totalPrice, it.quantity * it.unitPrice)) = [(1, 2)] ∧
    (999 : Int) ≠ 1 ∧ (1 : Int) ≠ 2 := by
  decide

/-- C7 counterexample: marking invoice `i1` "paid" at time 100 stamps
`paidAt = 100`, and marking it "paid" again at time 105 overwrites the
stored timestamp with 105 — `updateInvoice` tests `!data.paidAt` on the
incoming patch, never on the stored row, so the second transition does
not leave the timestamp unchanged. -/
theorem updateInvoice_paid_overwrites_timestamp :
    ((updateInvoice invDB "i1" paidPatch 100).2.map Invoice.paidAt) =
      some (some 100) ∧
    ((updateInvoice (updateInvoice invDB "i1" paidPatch 100).1 "i1"
      paidPatch 105).2.map Invoice.paidAt) = some (some 105) ∧
    some (105 : Nat) ≠ some (100 : Nat) := by
  decide

/-- C7 amended: every `updateInvoice` whose patch sets status "paid" and
carries no `paidAt` of its own (as the PATCH route's patch never does)
stamps the stored row's `paidAt` with the time of that update — non-null
on the first transition, but overwritten rather than preserved on every
later one. -/
theorem updateInvoice_paid_restamps (db : DB) (id : String)
    (data : InvoiceUpdate) (now : Nat) (inv : Invoice)
    (hstatus : data.status = some "paid") (hpaid : data.paidAt = none)
    (hinv : db.invoices.find? (fun i => i.id == id) = some inv) :
    (updateInvoice db id data now).2 =
      some (applyInvoiceUpdate data now inv) ∧
    (applyInvoiceUpdate data now inv).status = "paid" ∧
    (applyInvoiceUpdate data now inv).paidAt = some now := by
  have hcomm : (updateInvoice db id data now).2 =
      (db.invoices.find? (fun i => i.id == id)).map
        (applyInvoiceUpdate data now) :=
    find?_map_comm db.invoices (fun i => i.id == id)
      (applyInvoiceUpdate data now) (fun i => rfl)
  rw [hinv] at hcomm
  refine ⟨hcomm, ?_, ?_⟩
  · simp [applyInvoiceUpdate, hstatus]
  · simp [applyInvoiceUpdate, hstatus, hpaid]

/-- Witness for the amended C7 statement: the second "paid" update of the
twice-updated invoice carries the second update's clock value. -/
theorem updateInvoice_paid_restamps_witness :
    paidPatch.status = some "paid" ∧ paidPatch.paidAt = none ∧
    (updateInvoice invDB "i1" paidPatch 100).1.invoices.find?
      (fun i => i.id == "i1") =
      some { id := "i1", saleId := "s9", invoiceNumber := "INV-0",
             status := "paid", issueDate := 0, dueDate := none,
             paidAt := some 100 } ∧
    (applyInvoiceUpdate paidPatch 105
      { id := "i1", saleId := "s9", invoiceNumber := "INV-0",
        status := "paid", issueDate := 0, dueDate := none,
        paidAt := some 100 }).paidAt = some 105 :=
  ⟨rfl, rfl, by decide,
    (updateInvoice_paid_restamps (updateInvoice invDB "i1" paidPatch 100).1
      "i1" paidPatch 105
      { id := "i1", saleId := "s9", invoiceNumber := "INV-0",
        status := "paid", issueDate := 0, dueDate := none,
        paidAt := some 100 } rfl rfl (by decide)).2.2⟩

/-- C8: a game-path sale whose API key matches no business is rejected
with 401 "Invalid API key" and the store is returned untouched: no row
in any table and no stock change. -/
theorem postGameSales_invalid_key (db : DB) (req : GameSaleReq) (gen : Gen)
    (hparse : gameParseOk req = true)
    (hkey : getBusinessByApiKey db req.businessApiKey = none) :
    postGameSales db req gen = (db, .error 401 "Invalid API key") := by
  simp [postGameSales, hparse, hkey]

/-- Witness for C8 at the concrete store. -/
theorem postGameSales_invalid_key_witness :
    gameParseOk badKeyReq = true ∧
    getBusinessByApiKey authDB "nope" = none ∧
    postGameSales authDB badKeyReq gen0 =
      (authDB, .error 401 "Invalid API key") :=
  ⟨by decide, by decide,
    postGameSales_invalid_key authDB badKeyReq gen0 (by decide) (by decide)⟩

/-- C9: `PATCH /api/products/:id` deletes the `businessId` key from the
patch before updating, so the stored product keeps its business while
every other supplied field is applied. -/
theorem patchProduct_keeps_businessId (db : DB) (userId productId : String)
    (body : ProductUpdate) (now : Nat) (p : Product)
    (hp : getProduct db productId = some p)
    (hauth : isUserAuthorizedForBusiness db userId p.businessId = true) :
    getProduct (patchProduct db userId productId body now).1 productId =
      some (applyProductUpdate p { body with businessId := none } now) ∧
    (patchProduct db userId productId body now).2 =
      .ok (some (applyProductUpdate p { body with businessId := none }
        now)) ∧
    (applyProductUpdate p { body with businessId := none } now).businessId
      = p.businessId ∧
    (applyProductUpdate p { body with businessId := none } now).name
      = body.name.getD p.name ∧
    (applyProductUpdate p { body with businessId := none } now).price
      = body.price.getD p.price ∧
    ((applyProductUpdate p { body with businessId := none } now).stock
      = match body.stock with
        | some s => some s
        | none => p.stock) ∧
    ((applyProductUpdate p { body with businessId := none } now).description
      = match body.description with
        | some d => some d
        | none => p.description) ∧
    ((applyProductUpdate p { body with businessId := none } now).category
      = match body.category with
        | some c => some c
        | none => p.category) ∧
    (applyProductUpdate p { body with businessId := none } now).isActive
      = body.isActive.getD p.isActive := by
  unfold getProduct at hp
  have hcomm :
      (updateProduct db productId { body with businessId := none } now).2 =
        (db.products.find? (fun q => q.id == productId)).map
          (fun q =>
            applyProductUpdate q { body with businessId := none } now) :=
    find?_map_comm db.products (fun q => q.id == productId)
      (fun q => applyProductUpdate q { body with businessId := none } now)
      (fun q => rfl)
  have h2 :
      (updateProduct db productId { body with businessId := none } now).2 =
        some (applyProductUpdate p { body with businessId := none } now) := by
    rw [hcomm, hp]; rfl
  have hmain : patchProduct db userId productId body now =
      ((updateProduct db productId { body with businessId := none } now).1,
       .ok (updateProduct db productId
         { body with businessId := none } now).2) := by
    simp [patchProduct, getProduct, hp, hauth]
  refine ⟨?_, ?_, rfl, rfl, rfl, rfl, rfl, rfl, rfl⟩
  · rw [hmain]
    exact h2
  · rw [hmain, h2]

/-- When the game item loop succeeds, the accumulated total is the sum of
the built line totals, and every built row takes its unit price and name
from its product record, with the line total `price * quantity`. -/
theorem buildGameItems_ok (db : DB) (businessId : String) :
    ∀ (reqs : List GameSaleItemReq) (rows : List InsertSaleItem)
      (total : Int),
      buildGameItems db businessId reqs = .ok (rows, total) →
      total = (rows.map InsertSaleItem.totalPrice).sum ∧
      ∀ r ∈ rows, ∃ p : Product, getProduct db r.productId = some p ∧
        p.businessId = businessId ∧ r.unitPrice = p.price ∧
        r.productName = p.name ∧ r.totalPrice = p.price * r.quantity := by
  intro reqs
  induction reqs with
  | nil =>
    intro rows total h
    simp only [buildGameItems, Except.ok.injEq, Prod.mk.injEq] at h
    obtain ⟨rfl, rfl⟩ := h
    simp
  | cons item rest ih =>
    intro rows total h
    cases hp : getProduct db item.productId with
    | none => simp [buildGameItems, hp] at h
    | some product =>
      have hpid : product.id = item.productId := by
        have h' := List.find?_some hp
        simpa using h'
      by_cases hb : product.businessId = businessId
      · by_cases hs : product.stock.getD 0 < item.quantity
        · simp [buildGameItems, hp, hb, hs] at h
        · cases hrec : buildGameItems db businessId rest with
          | error msg => simp [buildGameItems, hp, hb, hs, hrec] at h
          | ok pr =>
            obtain ⟨rows', total'⟩ := pr
            simp only [buildGameItems, hp, hb, hs, hrec, bne_self_eq_false,
              Bool.false_eq_true, if_false, decide_eq_true_eq, if_neg,
              Except.ok.injEq, Prod.mk.injEq] at h
            obtain ⟨hrows, htotal⟩ := h
            subst hrows; subst htotal
            obtain ⟨ihsum, ihmem⟩ := ih rows' total' hrec
            constructor
            · simp [ihsum]
            · intro r hr
              rcases List.mem_cons.mp hr with rfl | hr'
              · refine ⟨product, ?_, hb, rfl, rfl, rfl⟩
                show getProduct db product.id = some product
                rw [hpid]
                exact hp
              · exact ihmem r hr'
      · simp [buildGameItems, hp, hb] at h

/-- When some line of a game request fails the item checks, the item loop
errors with one of the three specific messages. -/
theorem buildGameItems_error_of_bad (db : DB) (businessId : String) :
    ∀ (reqs : List GameSaleItemReq),
      (∃ it ∈ reqs,
        itemFails db businessId it.productId it.quantity = true) →
      ∃ msg, buildGameItems db businessId reqs = .error msg ∧
        itemRejectionMsg msg := by
  intro reqs
  induction reqs with
  | nil => rintro ⟨it, hit, -⟩; simp at hit
  | cons item rest ih =>
    rintro ⟨it, hit, hbad⟩
    cases hp : getProduct db item.productId with
    | none =>
      refine ⟨"Product " ++ item.productId ++ " not found", ?_, ?_⟩
      · simp [buildGameItems, hp]
      · exact Or.inl ⟨item.productId, rfl⟩
    | some product =>
      by_cases hb : product.businessId = businessId
      · by_cases hs : product.stock.getD 0 < item.quantity
        · refine ⟨"Insufficient stock for " ++ product.name, ?_, ?_⟩
          · simp [buildGameItems, hp, hb, hs]
          · exact Or.inr (Or.inr ⟨product.name, rfl⟩)
        · have hit' : it ∈ rest := by
            rcases List.mem_cons.mp hit with rfl | h'
            · exfalso
              rw [itemFails, hp] at hbad
              simp [hb, hs] at hbad
            · exact h'
          obtain ⟨msg, hmsg, hform⟩ := ih ⟨it, hit', hbad⟩
          exact ⟨msg, by simp [buildGameItems, hp, hb, hs, hmsg], hform⟩
      · refine ⟨"Product " ++ product.name ++
          " does not belong to this business", ?_, ?_⟩
        · simp [buildGameItems, hp, hb]
        · exact Or.inr (Or.inl ⟨product.name, rfl⟩)

/-- When some line of a web request fails the item checks, the validation
loop returns one of the three specific messages. -/
theorem validateSaleItems_some_of_bad (db : DB) (businessId : String) :
    ∀ (items : List WebSaleItemReq),
      (∃ it ∈ items,
        itemFails db businessId it.productId it.quantity = true) →
      ∃ msg, validateSaleItems db businessId items = some msg ∧
        itemRejectionMsg msg := by
  intro items
  induction items with
  | nil => rintro ⟨it, hit, -⟩; simp at hit
  | cons item rest ih =>
    rintro ⟨it, hit, hbad⟩
    cases hp : getProduct db item.productId with
    | none =>
      refine ⟨"Product " ++ item.productId ++ " not found", ?_, ?_⟩
      · simp [validateSaleItems, hp]
      · exact Or.inl ⟨item.productId, rfl⟩
    | some product =>
      by_cases hb : product.businessId = businessId
      · by_cases hs : product.stock.getD 0 < item.quantity
        · refine ⟨"Insufficient stock for " ++ product.name, ?_, ?_⟩
          · simp [validateSaleItems, hp, hb, hs]
          · exact Or.inr (Or.inr ⟨product.name, rfl⟩)
        · have hit' : it ∈ rest := by
            rcases List.mem_cons.mp hit with rfl | h'
            · exfalso
              rw [itemFails, hp] at hbad
              simp [hb, hs] at hbad
            · exact h'
          obtain ⟨msg, hmsg, hform⟩ := ih ⟨it, hit', hbad⟩
          exact ⟨msg, by simp [validateSaleItems, hp, hb, hs, hmsg], hform⟩
      · refine ⟨"Product " ++ product.name ++
          " does not belong to this business", ?_, ?_⟩
        · simp [validateSaleItems, hp, hb]
        · exact Or.inr (Or.inl ⟨product.name, rfl⟩)

/-- C4: on both entry points, a request whose line references a missing
product, a product of another business, or a product with insufficient
stock is answered with a 400 carrying one of the three specific reasons,
and the store is returned untouched — the validation loops run before
`createSale` is ever called. -/
theorem saleRequestBadItemRejected :
    (∀ (db : DB) (uid : String) (req : WebSaleReq) (gen : Gen),
      webParseOk req = true →
      isUserAuthorizedForBusiness db uid req.businessId = true →
      (∃ it ∈ req.items,
        itemFails db req.businessId it.productId it.quantity = true) →
      ∃ msg, postSales db uid req gen = (db, .error 400 msg) ∧
        itemRejectionMsg msg) ∧
    (∀ (db : DB) (req : GameSaleReq) (gen : Gen) (business : Business),
      gameParseOk req = true →
      getBusinessByApiKey db req.businessApiKey = some business →
      (∃ it ∈ req.items,
        itemFails db business.id it.productId it.quantity = true) →
      ∃ msg, postGameSales db req gen = (db, .error 400 msg) ∧
        itemRejectionMsg msg) := by
  constructor
  · intro db uid req gen hparse hauth hbad
    obtain ⟨msg, hmsg, hform⟩ :=
      validateSaleItems_some_of_bad db req.businessId req.items hbad
    exact ⟨msg, by simp [postSales, hparse, hauth, hmsg], hform⟩
  · intro db req gen business hparse hkey hbad
    obtain ⟨msg, hmsg, hform⟩ :=
      buildGameItems_error_of_bad db business.id req.items hbad
    exact ⟨msg, by simp [postGameSales, hparse, hkey, hmsg], hform⟩

/-- Witness for C4 at the sold-out store, on both entry points. -/
theorem saleRequestBadItemRejected_witness :
    webParseOk oneWidgetWebReq = true ∧
    isUserAuthorizedForBusiness soldOutDB "u1" "b1" = true ∧
    itemFails soldOutDB "b1" "p1" 1 = true ∧
    (∃ msg, postSales soldOutDB "u1" oneWidgetWebReq gen0 =
      (soldOutDB, .error 400 msg) ∧ itemRejectionMsg msg) ∧
    gameParseOk oneWidgetGameReq = true ∧
    (∃ msg, postGameSales soldOutDB oneWidgetGameReq gen0 =
      (soldOutDB, .error 400 msg) ∧ itemRejectionMsg msg) :=
  ⟨by decide, by decide, by decide,
    saleRequestBadItemRejected.1 soldOutDB "u1" oneWidgetWebReq gen0
      (by decide) (by decide)
      ⟨{ productId := "p1", productName := "Widget", quantity := 1,
         unitPrice := 10000, totalPrice := 10000 }, by decide, by decide⟩,
    by decide,
    saleRequestBadItemRejected.2 soldOutDB oneWidgetGameReq gen0
      { id := "b1", name := "Alpha", btype := "store", description := none,
        ownerId := "u1", apiKey := some "k1", isActive := true }
      (by decide) (by decide)
      ⟨{ productId := "p1", quantity := 1 }, by decide, by decide⟩⟩

/-- Witness for C9 at the concrete store: the patch `movePatch` tries to
move the Widget to business `b2`; the stored row keeps `b1` while the
new name and price are applied. -/
theorem patchProduct_keeps_businessId_witness :
    getProduct shopDB "p1" = some widget ∧
    isUserAuthorizedForBusiness shopDB "u1" widget.businessId = true ∧
    getProduct (patchProduct shopDB "u1" "p1" movePatch 50).1 "p1" =
      some (applyProductUpdate widget
        { movePatch with businessId := none } 50) ∧
    (applyProductUpdate widget
      { movePatch with businessId := none } 50).businessId =
      widget.businessId ∧
    (applyProductUpdate widget
      { movePatch with businessId := none } 50).name =
      movePatch.name.getD widget.name :=
  ⟨by decide, by decide,
    (patchProduct_keeps_businessId shopDB "u1" "p1" movePatch 50 widget
      (by decide) (by decide)).1,
    (patchProduct_keeps_businessId shopDB "u1" "p1" movePatch 50 widget
      (by decide) (by decide)).2.2.1,
    (patchProduct_keeps_businessId shopDB "u1" "p1" movePatch 50 widget
      (by decide) (by decide)).2.2.2.1⟩

/-- Anatomy of a 201 answer of the game handler: the key resolved to a
business, the item loop succeeded with the response's total, the
response's sale id is the fresh id, and the store gained exactly the
sale row built from the resolved seller and the built item rows. -/
theorem postGameSales_created_spec (db : DB) (req : GameSaleReq) (gen : Gen)
    (db' : DB) (sid invNum : String) (total : Int)
    (hres : postGameSales db req gen = (db', .created sid invNum total)) :
    ∃ (business : Business) (rows : List InsertSaleItem),
      getBusinessByApiKey db req.businessApiKey = some business ∧
      buildGameItems db business.id req.items = .ok (rows, total) ∧
      sid = gen.saleId ∧
      db'.sales = db.sales ++
        [saleRowOf (gameInsertSale db req business total) gen] ∧
      db'.saleItems = db.saleItems ++ itemRows gen gen.saleId rows 0 := by
  unfold postGameSales at hres
  split at hres
  · simp at hres
  · split at hres
    · simp at hres
    · rename_i business hkey
      split at hres
      · simp at hres
      · rename_i rows total0 hbuild
        split at hres
        · rename_i cdb sale invoice hcs
          simp only [Prod.mk.injEq, GameSaleResp.created.injEq] at hres
          obtain ⟨hdb, hsid, hinvn, htot⟩ := hres
          subst hdb; subst hsid; subst hinvn; subst htot
          have h2 : (createSale db (gameInsertSale db req business total0)
              rows gen).2 = .ok (sale, invoice) := by rw [hcs]
          obtain ⟨hsale, hinv, -, -⟩ := createSale_ok_spec db
            (gameInsertSale db req business total0) rows gen sale invoice h2
          subst hsale
          refine ⟨business, rows, hkey, hbuild, rfl, ?_, ?_⟩
          · have h1 : (createSale db (gameInsertSale db req business total0)
                rows gen).1 = cdb := by rw [hcs]
            rw [← h1, createSale_sales]
          · have h1 : (createSale db (gameInsertSale db req business total0)
                rows gen).1 = cdb := by rw [hcs]
            rw [← h1, createSale_saleItems]
        · simp at hres

/-- C2 amended: on the game path every persisted line of the new sale
carries the referenced product's own name and price, its line total is
quantity times that server-resolved unit price, and the sale's total is
the sum of the line totals; on the web path the stored values are the
client-supplied ones (see the counterexample). -/
theorem postGameSales_resolves_prices (db : DB) (req : GameSaleReq)
    (gen : Gen) (db' : DB) (sid invNum : String) (total : Int)
    (hfresh : ∀ it ∈ db.saleItems, it.saleId ≠ gen.saleId)
    (hres : postGameSales db req gen = (db', .created sid invNum total)) :
    (∀ it ∈ db'.saleItems, it.saleId = sid →
      ∃ p : Product, getProduct db it.productId = some p ∧
        it.productName = p.name ∧ it.unitPrice = p.price ∧
        it.totalPrice = it.quantity * it.unitPrice) ∧
    ∃ sale ∈ db'.sales, sale.id = sid ∧
      sale.totalAmount =
        ((db'.saleItems.filter (fun it => it.saleId == sid)).map
          SaleItem.totalPrice).sum := by
  obtain ⟨business, rows, hkey, hbuild, hsid, hsales, hitems⟩ :=
    postGameSales_created_spec db req gen db' sid invNum total hres
  subst hsid
  obtain ⟨hsum, hmem⟩ :=
    buildGameItems_ok db business.id req.items rows total hbuild
  constructor
  · intro it hit hitsale
    rw [hitems] at hit
    rcases List.mem_append.mp hit with hold | hnew
    · exact absurd hitsale (hfresh it hold)
    · obtain ⟨r0, hr0, hpid, hname, hqty, hup, htp⟩ :=
        itemRows_fields gen gen.saleId rows 0 it hnew
      obtain ⟨p, hgp, -, hupp, hnamep, htpp⟩ := hmem r0 hr0
      refine ⟨p, ?_, ?_, ?_, ?_⟩
      · rw [hpid]; exact hgp
      · rw [hname, hnamep]
      · rw [hup, hupp]
      · rw [htp, htpp, hqty, hup, hupp]
        exact mul_comm p.price r0.quantity
  · refine ⟨saleRowOf (gameInsertSale db req business total) gen, ?_, rfl,
      ?_⟩
    · rw [hsales]; simp
    · show total = _
      rw [hitems, List.filter_append]
      have hOld :
          db.saleItems.filter (fun it => it.saleId == gen.saleId) = [] :=
        List.filter_eq_nil_iff.mpr
          (fun it hit => by simpa using hfresh it hit)
      have hNew : (itemRows gen gen.saleId rows 0).filter
          (fun it => it.saleId == gen.saleId) =
            itemRows gen gen.saleId rows 0 :=
        List.filter_eq_self.mpr (fun it hit => by
          simp [itemRows_saleId gen gen.saleId rows 0 it hit])
      rw [hOld, hNew, List.nil_append, itemRows_map_totalPrice, ← hsum]

/-- Witness for the amended C2 statement: the concrete game sale at
`shopDB` has server-resolved names, prices and totals. -/
theorem postGameSales_resolves_prices_witness :
    (∀ it ∈ (postGameSales shopDB noSellerReq gen0).1.saleItems,
      it.saleId = "s1" →
      ∃ p : Product, getProduct shopDB it.productId = some p ∧
        it.productName = p.name ∧ it.unitPrice = p.price ∧
        it.totalPrice = it.quantity * it.unitPrice) ∧
    ∃ sale ∈ (postGameSales shopDB noSellerReq gen0).1.sales,
      sale.id = "s1" ∧
      sale.totalAmount =
        (((postGameSales shopDB noSellerReq gen0).1.saleItems.filter
          (fun it => it.saleId == "s1")).map SaleItem.totalPrice).sum :=
  postGameSales_resolves_prices shopDB noSellerReq gen0
    (postGameSales shopDB noSellerReq gen0).1 "s1" (invoiceNumberFor 7)
    10000 (by decide) (by decide)

/-- C3 amended: every sale created through the game path satisfies
`totalAmount = Σ line totals` and `totalPrice = quantity * unitPrice`
on each of its lines; the web path stores the client's figures
unchecked (see the counterexample). -/
theorem postGameSales_totals_invariant (db : DB) (req : GameSaleReq)
    (gen : Gen) (db' : DB) (sid invNum : String) (total : Int)
    (hfresh : ∀ it ∈ db.saleItems, it.saleId ≠ gen.saleId)
    (hres : postGameSales db req gen = (db', .created sid invNum total)) :
    ∃ sale ∈ db'.sales, sale.id = sid ∧
      sale.totalAmount =
        ((db'.saleItems.filter (fun it => it.saleId == sid)).map
          SaleItem.totalPrice).sum ∧
      ∀ it ∈ db'.saleItems, it.saleId = sid →
        it.totalPrice = it.quantity * it.unitPrice := by
  obtain ⟨business, rows, hkey, hbuild, hsid, hsales, hitems⟩ :=
    postGameSales_created_spec db req gen db' sid invNum total hres
  subst hsid
  obtain ⟨hsum, hmem⟩ :=
    buildGameItems_ok db business.id req.items rows total hbuild
  refine ⟨saleRowOf (gameInsertSale db req business total) gen, ?_, rfl,
    ?_, ?_⟩
  · rw [hsales]; simp
  · show total = _
    rw [hitems, List.filter_append]
    have hOld :
        db.saleItems.filter (fun it => it.saleId == gen.saleId) = [] :=
      List.filter_eq_nil_iff.mpr (fun it hit => by simpa using hfresh it hit)
    have hNew : (itemRows gen gen.saleId rows 0).filter
        (fun it => it.saleId == gen.saleId) =
          itemRows gen gen.saleId rows 0 :=
      List.filter_eq_self.mpr (fun it hit => by
        simp [itemRows_saleId gen gen.saleId rows 0 it hit])
    rw [hOld, hNew, List.nil_append, itemRows_map_totalPrice, ← hsum]
  · intro it hit hitsale
    rw [hitems] at hit
    rcases List.mem_append.mp hit with hold | hnew
    · exact absurd hitsale (hfresh it hold)
    · obtain ⟨r0, hr0, hpid, hname, hqty, hup, htp⟩ :=
        itemRows_fields gen gen.saleId rows 0 it hnew
      obtain ⟨p, hgp, -, hupp, hnamep, htpp⟩ := hmem r0 hr0
      rw [htp, htpp, hqty, hup, hupp]
      exact mul_comm p.price r0.quantity

/-- Witness for the amended C3 statement at the concrete game sale. -/
theorem postGameSales_totals_invariant_witness :
    ∃ sale ∈ (postGameSales shopDB noSellerReq gen0).1.sales,
      sale.id = "s1" ∧
      sale.totalAmount =
        (((postGameSales shopDB noSellerReq gen0).1.saleItems.filter
          (fun it => it.saleId == "s1")).map SaleItem.totalPrice).sum ∧
      ∀ it ∈ (postGameSales shopDB noSellerReq gen0).1.saleItems,
        it.saleId = "s1" → it.totalPrice = it.quantity * it.unitPrice :=
  postGameSales_totals_invariant shopDB noSellerReq gen0
    (postGameSales shopDB noSellerReq gen0).1 "s1" (invoiceNumberFor 7)
    10000 (by decide) (by decide)

/-- C6: every successful `createSale` leaves exactly one invoice
referencing the new sale, with status "pending", and — thanks to the
unique index on invoice numbers that the insert is checked against —
the invoice numbers across the store stay pairwise distinct. -/
theorem createSale_unique_pending_invoice (db : DB)
    (saleData : InsertSale) (items : List InsertSaleItem) (gen : Gen)
    (sale : Sale) (inv : Invoice)
    (hnodup : (db.invoices.map Invoice.invoiceNumber).Nodup)
    (hfresh : ∀ i ∈ db.invoices, i.saleId ≠ gen.saleId)
    (hok : (createSale db saleData items gen).2 = .ok (sale, inv)) :
    inv.status = "pending" ∧ inv.saleId = sale.id ∧
    (createSale db saleData items gen).1.invoices.filter
      (fun i => i.saleId == sale.id) = [inv] ∧
    ((createSale db saleData items gen).1.invoices.map
      Invoice.invoiceNumber).Nodup := by
  obtain ⟨hsale, hinv, hinvs, hnum⟩ :=
    createSale_ok_spec db saleData items gen sale inv hok
  subst hsale; subst hinv
  refine ⟨rfl, rfl, ?_, ?_⟩
  · rw [hinvs, List.filter_append]
    have h1 : db.invoices.filter
        (fun i => i.saleId == (saleRowOf saleData gen).id) = [] :=
      List.filter_eq_nil_iff.mpr (fun i hi => by simpa using hfresh i hi)
    rw [h1, List.nil_append]
    simp [invoiceRowOf, saleRowOf]
  · rw [hinvs, List.map_append, List.nodup_append]
    refine ⟨hnodup, List.nodup_singleton _, ?_⟩
    intro a ha hb
    obtain ⟨i, hi, rfl⟩ := List.mem_map.mp ha
    simp only [List.map_cons, List.map_nil, List.mem_cons,
      List.not_mem_nil, or_false] at hb
    exact hnum i hi hb

/-- Witness for C6: the clean `createSale` run at `shopDB`. -/
theorem createSale_unique_pending_invoice_witness :
    (shopDB.invoices.map Invoice.invoiceNumber).Nodup ∧
    (invoiceRowOf gen0).status = "pending" ∧
    (invoiceRowOf gen0).saleId = (saleRowOf plainSaleData gen0).id ∧
    (createSale shopDB plainSaleData plainItems gen0).1.invoices.filter
      (fun i => i.saleId == (saleRowOf plainSaleData gen0).id) =
      [invoiceRowOf gen0] ∧
    ((createSale shopDB plainSaleData plainItems gen0).1.invoices.map
      Invoice.invoiceNumber).Nodup :=
  ⟨by decide,
   (createSale_unique_pending_invoice shopDB plainSaleData plainItems gen0
     (saleRowOf plainSaleData gen0) (invoiceRowOf gen0) (by decide)
     (by decide) (by decide)).1,
   (createSale_unique_pending_invoice shopDB plainSaleData plainItems gen0
     (saleRowOf plainSaleData gen0) (invoiceRowOf gen0) (by decide)
     (by decide) (by decide)).2.1,
   (createSale_unique_pending_invoice shopDB plainSaleData plainItems gen0
     (saleRowOf plainSaleData gen0) (invoiceRowOf gen0) (by decide)
     (by decide) (by decide)).2.2.1,
   (createSale_unique_pending_invoice shopDB plainSaleData plainItems gen0
     (saleRowOf plainSaleData gen0) (invoiceRowOf gen0) (by decide)
     (by decide) (by decide)).2.2.2⟩

/-- Two game requests that differ only in their seller field are handled
identically whenever the seller resolution agrees on the business the
shared key looks up. -/
theorem postGameSales_seller_congr (db : DB) (gen : Gen)
    (r1 r2 : GameSaleReq)
    (hkey : r1.businessApiKey = r2.businessApiKey)
    (hbn : r1.buyerName = r2.buyerName)
    (hbi : r1.buyerInfo = r2.buyerInfo)
    (hits : r1.items = r2.items)
    (hsel : ∀ b : Business,
      getBusinessByApiKey db r2.businessApiKey = some b →
      gameSellerId db r1 b = gameSellerId db r2 b) :
    postGameSales db r1 gen = postGameSales db r2 gen := by
  obtain ⟨k1, n1, i1, s1, t1⟩ := r1
  obtain ⟨k2, n2, i2, s2, t2⟩ := r2
  simp only at hkey hbn hbi hits
  subst hkey; subst hbn; subst hbi; subst hits
  simp only at hsel
  unfold postGameSales
  cases hk : getBusinessByApiKey db k1 with
  | none => simp [gameParseOk, hk]
  | some b =>
    have hins : ∀ t : Int,
        gameInsertSale db ⟨k1, n1, i1, s1, t1⟩ b t =
          gameInsertSale db ⟨k1, n1, i1, s2, t1⟩ b t := by
      intro t
      unfold gameInsertSale
      rw [hsel b hk]
    simp [gameParseOk, hk, hins]

/-- C10: a game request carrying a seller id that is neither the owner
nor an employee of the key's business is handled exactly as if no
seller id had been supplied, and on success the created sale records
the business owner as the seller — the invalid id is silently
ignored. -/
theorem postGameSales_ignores_invalid_seller (db : DB)
    (req : GameSaleReq) (gen : Gen) (s : String) (business : Business)
    (hs : req.sellerId = some s)
    (hkey : getBusinessByApiKey db req.businessApiKey = some business)
    (hnoauth : isUserAuthorizedForBusiness db s business.id = false) :
    postGameSales db req gen =
      postGameSales db { req with sellerId := none } gen ∧
    ∀ (db' : DB) (sid invNum : String) (total : Int),
      postGameSales db req gen = (db', .created sid invNum total) →
      ∃ sale ∈ db'.sales, sale.id = sid ∧
        sale.sellerId = business.ownerId := by
  constructor
  · apply postGameSales_seller_congr db gen req { req with sellerId := none }
      rfl rfl rfl rfl
    intro b hk
    have hb : b = business := by
      rw [show ({ req with sellerId := none } :
            GameSaleReq).businessApiKey = req.businessApiKey from rfl,
          hkey] at hk
      exact (Option.some.inj hk).symm
    subst hb
    unfold gameSellerId
    rw [hs]
    simp [hnoauth]
  · intro db' sid invNum total hres
    obtain ⟨business', rows, hkey', hbuild, hsid, hsales, hitems⟩ :=
      postGameSales_created_spec db req gen db' sid invNum total hres
    rw [hkey] at hkey'
    obtain rfl : business = business' := by
      exact Option.some.inj hkey'
    subst hsid
    refine ⟨saleRowOf (gameInsertSale db req business total) gen, ?_, rfl,
      ?_⟩
    · rw [hsales]; simp
    · show gameSellerId db req business = business.ownerId
      unfold gameSellerId
      rw [hs]
      simp [hnoauth]

/-- Witness for C10: the bogus seller "mallory" is ignored at `shopDB`
and the created sale records owner `u1`. -/
theorem postGameSales_ignores_invalid_seller_witness :
    bogusSellerReq.sellerId = some "mallory" ∧
    getBusinessByApiKey shopDB "k1" = some alphaBiz ∧
    isUserAuthorizedForBusiness shopDB "mallory" "b1" = false ∧
    postGameSales shopDB bogusSellerReq gen0 =
      postGameSales shopDB noSellerReq gen0 ∧
    ∃ sale ∈ (postGameSales shopDB bogusSellerReq gen0).1.sales,
      sale.id = "s1" ∧ sale.sellerId = "u1" :=
  ⟨rfl, by decide, by decide,
   (postGameSales_ignores_invalid_seller shopDB bogusSellerReq gen0
     "mallory" alphaBiz rfl (by decide) (by decide)).1,
   (postGameSales_ignores_invalid_seller shopDB bogusSellerReq gen0
     "mallory" alphaBiz rfl (by decide) (by decide)).2
     (postGameSales shopDB bogusSellerReq gen0).1 "s1"
     (invoiceNumberFor 7) 10000 (by decide)⟩

end GTA
